import Mathlib

/-!
Shallow embedding of the KPI / rollup core of the `dashboards-python`
repository (`back-dashboards-pyhton/main.py`, `dashboard_oee_teep.py`).

Modelling choices:
* A calendar date is encoded as a natural number `yyyymmdd`; the pandas
  truncation `dt.to_period("M")` becomes division by 100 (`yyyymm`).
* Metric values are rationals (the claims only involve exact decimal
  arithmetic, never float rounding).
* `pd.read_excel` is I/O; entry points take the read result as a value.
  `kpis_resumo` (no `try/except`) takes `Except LoadError` inputs and lets
  errors propagate. For `compute_kpis`, whose single `try` block can be
  interrupted at several points with all earlier assignments preserved,
  the interruption point is an explicit argument (`TryInterrupt`) of the
  full model `compute_kpis_run`; `compute_kpis` is the coarse per-file
  `Option` interface over it.
* `df.sort_values("Data")` (default `kind='quicksort'`, documented as not
  stable) guarantees only the ordering by date: its contract is the
  relation `IsSortValues` (any date-sorted permutation of the input, tie
  order unspecified). `sortByData` is one fixed admissible output used to
  keep the pipeline executable; no theorem below relies on its tie order —
  statements about tie behavior quantify over every admissible output.
-/

namespace Dashboards

/-- Truncation of an encoded date `yyyymmdd` to its month `yyyymm`,
the embedding of `df["Data"].dt.to_period("M")`. -/
def toPeriodM (d : Nat) : Nat := d / 100

/-- One row of the normalized OEE table: columns `Data`, `Linha`, `OEE`
(the auxiliary fraction columns play no role in the claims). -/
structure ObsOee where
  data : Nat
  linha : String
  oee : Rat
deriving Repr, DecidableEq

/-- One row of the normalized TEEP table: columns `Data`, `Linha`,
`Utilizacao`, `TEEP`. -/
structure ObsTeep where
  data : Nat
  linha : String
  utilizacao : Rat
  teep : Rat
deriving Repr, DecidableEq

/-! ### Spreadsheet loader: column normalization and required-column check -/

/-- Embedding of `df.columns.str.strip().str.lower()`: trim surrounding spaces and
lowercase each column name. -/
def normName (c : String) : String :=
  String.mk (((c.toList.dropWhile (· = ' ')).reverse.dropWhile (· = ' ')).reverse.map Char.toLower)

/-- Normalization applied to a whole header row. -/
def normalizeCols (cols : List String) : List String :=
  cols.map normName

/-- Embedding of `faltando = [c for c in esperadas if c not in df.columns]`. -/
def faltando (esperadas cols : List String) : List String :=
  esperadas.filter (fun c => !cols.contains c)

/-- Loader failure taxonomy (spec §7). -/
inductive LoadError where
  | sourceNotFound : LoadError
  | missingColumns (missing : List String) : LoadError
  | invalidDateFormat : LoadError
deriving Repr, DecidableEq

/-- The required-column gate of `grafico9_oee_diario` / `grafico8`:
normalize the header, compute the missing required names, fail with
exactly that list when non-empty. -/
def loadCheck (esperadas cols : List String) : Except LoadError Unit :=
  let falt := faltando esperadas (normalizeCols cols)
  if falt = [] then Except.ok () else Except.error (LoadError.missingColumns falt)

/-- The `esperadas` list for the OEE table. -/
def esperadasOee : List String :=
  ["data", "linha", "disponibilidade", "performance", "qualidade", "oee"]

/-- The `esperadas` list for the TEEP table. -/
def esperadasTeep : List String :=
  ["data", "linha", "utilizacao", "teep"]

/-! ### KPI engine: last observation per category, role assignment -/

/-- The sort key of `df_oee.sort_values("Data")`. -/
def leData (a b : ObsOee) : Prop := a.data ≤ b.data

instance : DecidableRel leData := fun a b => Nat.decLe a.data b.data

instance : IsTotal ObsOee leData := ⟨fun a b => Nat.le_total a.data b.data⟩

instance : IsTrans ObsOee leData := ⟨fun _ _ _ => Nat.le_trans⟩

/-- The contract of `df_oee.sort_values("Data")`: pandas' default
quicksort guarantees only that the output is a permutation of the input
ordered by date; the relative order of rows with equal dates is
unspecified. Any list satisfying this predicate is an admissible output. -/
def IsSortValues (rows s : List ObsOee) : Prop :=
  s.Perm rows ∧ s.Sorted leData

/-- One fixed admissible output of `sort_values("Data")`, used to make the
pipeline executable. Its tie order (last input occurrence last) is an
implementation choice of this representative, not a guarantee of the
program; no theorem below depends on it — tie-order statements quantify
over every `IsSortValues` output instead. -/
def sortByData (rows : List ObsOee) : List ObsOee :=
  rows.insertionSort leData

/-- The row `sort_values("Data").groupby("Linha").tail(1)` keeps for
category `c`: the last category-`c` row of the date-sorted table. -/
def lastRowFor (rows : List ObsOee) (c : String) : Option ObsOee :=
  ((sortByData rows).filter (fun r => r.linha == c)).getLast?

/-- Embedding of `ultimos[ultimos["Linha"] == c]["OEE"].iloc[0]` (one row per category
in `ultimos`, so this is the kept row's OEE). -/
def lastValue (rows : List ObsOee) (c : String) : Rat :=
  match lastRowFor rows c with
  | some r => r.oee
  | none => 0

/-- Embedding of `sorted(ultimos["Linha"].unique().tolist())`: the distinct categories
of the table, lexicographically sorted (`tail(1)` keeps one row per
category, so its distinct `Linha` set is the table's). -/
def linhasSorted (rows : List ObsOee) : List String :=
  ((rows.map (fun r => r.linha)).dedup).insertionSort (· ≤ ·)

/-- The `(SMT, IM)` pair of the OEE branch of `kpis_resumo` /
`compute_kpis`: first sorted category to SMT, second to IM; one category
duplicates to both roles; zero categories default both to `0.0`. -/
def kpiValsOee (rows : List ObsOee) : Rat × Rat :=
  match linhasSorted rows with
  | [] => (0, 0)
  | [l0] => (lastValue rows l0, lastValue rows l0)
  | l0 :: l1 :: _ => (lastValue rows l0, lastValue rows l1)

/-- The sort key of `df_teep.sort_values("Data")`. -/
def leDataT (a b : ObsTeep) : Prop := a.data ≤ b.data

instance : DecidableRel leDataT := fun a b => Nat.decLe a.data b.data

instance : IsTotal ObsTeep leDataT := ⟨fun a b => Nat.le_total a.data b.data⟩

instance : IsTrans ObsTeep leDataT := ⟨fun _ _ _ => Nat.le_trans⟩

/-- The contract of `df_teep.sort_values("Data")`, as for the OEE table:
a date-sorted permutation with unspecified tie order. -/
def IsSortValuesT (rows s : List ObsTeep) : Prop :=
  s.Perm rows ∧ s.Sorted leDataT

/-- One fixed admissible output of the TEEP `sort_values("Data")` (same
caveat as `sortByData`: the tie order of this representative is not a
program guarantee, and no theorem below depends on it). -/
def sortByDataT (rows : List ObsTeep) : List ObsTeep :=
  rows.insertionSort leDataT

/-- TEEP analogue of `lastRowFor`. -/
def lastRowForT (rows : List ObsTeep) (c : String) : Option ObsTeep :=
  ((sortByDataT rows).filter (fun r => r.linha == c)).getLast?

/-- TEEP analogue of `lastValue`. -/
def lastValueT (rows : List ObsTeep) (c : String) : Rat :=
  match lastRowForT rows c with
  | some r => r.teep
  | none => 0

/-- TEEP analogue of `linhasSorted`. -/
def linhasSortedT (rows : List ObsTeep) : List String :=
  ((rows.map (fun r => r.linha)).dedup).insertionSort (· ≤ ·)

/-- The `(SMT, IM)` pair of the TEEP branch. -/
def kpiValsTeep (rows : List ObsTeep) : Rat × Rat :=
  match linhasSortedT rows with
  | [] => (0, 0)
  | [l0] => (lastValueT rows l0, lastValueT rows l0)
  | l0 :: l1 :: _ => (lastValueT rows l0, lastValueT rows l1)

/-! ### KPI card formatting (`formata_kpi`) -/

/-- Round to the nearest integer, ties to even: the rounding of Python's
fixed-point `format`. -/
def roundHalfEven (q : Rat) : Int :=
  let f := ⌊q⌋
  let frac := q - (f : Rat)
  if frac < 1 / 2 then f
  else if 1 / 2 < frac then f + 1
  else if f % 2 = 0 then f else f + 1

/-- Embedding of the Python format `f"{q:.1f}"` (with `forceSign` for the plus flag), decimal point
replaced by a comma as in the source's `.replace(".", ",")`. -/
def fmt1 (q : Rat) (forceSign : Bool) : String :=
  let n := (roundHalfEven (q * 10)).natAbs
  let sgn := if q < 0 then "-" else if forceSign then "+" else ""
  sgn ++ toString (n / 10) ++ "," ++ toString (n % 10)

/-- Embedding of the Python format `f"{q:.0f}"`. -/
def fmt0 (q : Rat) : String :=
  (if q < 0 then "-" else "") ++ toString (roundHalfEven q).natAbs

/-- The KPI card record (`KpiItem` in `main.py`, the dict built by
`formata_kpi` in `dashboard_oee_teep.py`). -/
structure KpiItem where
  title : String
  value : String
  meta : String
  delta_label : String
  delta_value : String
  is_positive : Bool
deriving Repr, DecidableEq

/-- The constant `meta = 0.77` — the fixed 77% target of both KPI entry points. -/
def metaKpi : Rat := 77 / 100

/-- Embedding of `formata_kpi(title, valor_0a1)`, identical in both entry points. -/
def formata_kpi (title : String) (valor_0a1 : Rat) : KpiItem :=
  let meta_0a1 := metaKpi
  let valor_pct := valor_0a1 * 100
  let meta_pct := meta_0a1 * 100
  let delta_pct := valor_pct - meta_pct
  let is_positive := decide (meta_0a1 ≤ valor_0a1)
  { title := title
    value := fmt1 valor_pct false ++ "%"
    meta := "Meta: ≥ " ++ fmt0 meta_pct ++ "%"
    delta_label := if is_positive then "Acima da meta" else "Abaixo da meta"
    delta_value := fmt1 delta_pct true ++ "%"
    is_positive := is_positive }

/-- The point at which an exception interrupts the single `try` block of
`compute_kpis` (`dashboard_oee_teep.py` lines 295-344), relative to the
four KPI assignments; `except Exception: pass` keeps every value assigned
before that point and leaves the rest at their `0.0` defaults.
`beforeOeeSmt`: the OEE read/normalize or the first OEE `float()` raised
(nothing assigned). `beforeOeeIm`: the `float()` for the second OEE
category raised (reachable when the OEE roster has at least two
categories). `beforeTeepSmt`: the TEEP read/normalize or the first TEEP
`float()` raised. `beforeTeepIm`: the `float()` for the second TEEP
category raised (reachable when the TEEP roster has at least two
categories, e.g. on a non-numeric cell). `noRaise`: the block ran to the
end. -/
inductive TryInterrupt where
  | beforeOeeSmt : TryInterrupt
  | beforeOeeIm : TryInterrupt
  | beforeTeepSmt : TryInterrupt
  | beforeTeepIm : TryInterrupt
  | noRaise : TryInterrupt
deriving Repr, DecidableEq

/-- Full model of `compute_kpis` of `dashboard_oee_teep.py`: the four
values start at `0.0`, the `try` block assigns them in order
(OEE SMT, OEE IM, TEEP SMT, TEEP IM) from the two tables, and an
exception at `intr` keeps exactly the values assigned before it. -/
def compute_kpis_run (oeeRows : List ObsOee) (teepRows : List ObsTeep)
    (intr : TryInterrupt) : List KpiItem :=
  let vals : Rat × Rat × Rat × Rat :=
    match intr with
    | TryInterrupt.beforeOeeSmt => (0, 0, 0, 0)
    | TryInterrupt.beforeOeeIm => ((kpiValsOee oeeRows).1, 0, 0, 0)
    | TryInterrupt.beforeTeepSmt =>
      ((kpiValsOee oeeRows).1, (kpiValsOee oeeRows).2, 0, 0)
    | TryInterrupt.beforeTeepIm =>
      ((kpiValsOee oeeRows).1, (kpiValsOee oeeRows).2, (kpiValsTeep teepRows).1, 0)
    | TryInterrupt.noRaise =>
      ((kpiValsOee oeeRows).1, (kpiValsOee oeeRows).2,
       (kpiValsTeep teepRows).1, (kpiValsTeep teepRows).2)
  [formata_kpi "OEE SMT" vals.1,
   formata_kpi "OEE IM" vals.2.1,
   formata_kpi "TEEP SMT" vals.2.2.1,
   formata_kpi "TEEP IM" vals.2.2.2]

/-- Coarse per-file interface over `compute_kpis_run`: `none` for a table
stands for a failure before any of that table's KPIs were assigned
(missing file, unreadable file, failed normalize, or a first-`float()`
failure). Mid-stage interruptions between two assignments of the same
table are expressed directly with `compute_kpis_run`. -/
def compute_kpis (oeeFile : Option (List ObsOee)) (teepFile : Option (List ObsTeep)) :
    List KpiItem :=
  compute_kpis_run (oeeFile.getD []) (teepFile.getD [])
    (match oeeFile, teepFile with
     | none, _ => TryInterrupt.beforeOeeSmt
     | some _, none => TryInterrupt.beforeTeepSmt
     | some _, some _ => TryInterrupt.noRaise)

/-- Embedding of `kpis_resumo` of `main.py`: same KPI derivation, but no `try/except` —
a read or parse failure propagates to the caller (FastAPI). -/
def kpis_resumo (oeeFile : Except LoadError (List ObsOee))
    (teepFile : Except LoadError (List ObsTeep)) : Except LoadError (List KpiItem) := do
  let oeeRows ← oeeFile
  let so := kpiValsOee oeeRows
  let teepRows ← teepFile
  let st := kpiValsTeep teepRows
  return [formata_kpi "OEE SMT" so.1,
          formata_kpi "OEE IM" so.2,
          formata_kpi "TEEP SMT" st.1,
          formata_kpi "TEEP IM" st.2]

/-! ### Monthly rollup engine -/

/-- Arithmetic mean of a list of rationals. -/
def mean (xs : List Rat) : Rat := xs.sum / (xs.length : Rat)

/-- The sorted distinct month keys produced by
`groupby("ano_mes")` (pandas sorts group keys ascending). -/
def mesesSorted (rows : List ObsOee) : List Nat :=
  ((rows.map (fun r => toPeriodM r.data)).dedup).insertionSort (· ≤ ·)

/-- One row of `df_mes` in the OEE chart pipelines. -/
structure MonthlyRowOee where
  ano_mes : Nat
  oee_mean : Rat
deriving Repr, DecidableEq

/-- Embedding of `df.assign(ano_mes=...).groupby("ano_mes")["OEE"].mean().reset_index()`. -/
def monthlyRollupOee (rows : List ObsOee) : List MonthlyRowOee :=
  (mesesSorted rows).map (fun m =>
    { ano_mes := m
      oee_mean := mean ((rows.filter (fun r => toPeriodM r.data == m)).map (fun r => r.oee)) })

/-- TEEP analogue of `mesesSorted`. -/
def mesesSortedT (rows : List ObsTeep) : List Nat :=
  ((rows.map (fun r => toPeriodM r.data)).dedup).insertionSort (· ≤ ·)

/-- One row of `df_mes` in the TEEP chart pipelines. -/
structure MonthlyRowTeep where
  ano_mes : Nat
  util_mean : Rat
  teep_mean : Rat
deriving Repr, DecidableEq

/-- Embedding of `groupby("ano_mes")[["Utilizacao", "TEEP"]].mean().reset_index()`. -/
def monthlyRollupTeep (rows : List ObsTeep) : List MonthlyRowTeep :=
  (mesesSortedT rows).map (fun m =>
    { ano_mes := m
      util_mean :=
        mean ((rows.filter (fun r => toPeriodM r.data == m)).map (fun r => r.utilizacao))
      teep_mean :=
        mean ((rows.filter (fun r => toPeriodM r.data == m)).map (fun r => r.teep)) })

/-! ### Chart assembly (`create_fig_oee_mensal` / `create_fig_teep_mensal`) -/

/-- A raw OEE spreadsheet: header names as read, plus the parsed rows. -/
structure RawOee where
  cols : List String
  rows : List ObsOee
deriving Repr, DecidableEq

/-- A raw TEEP spreadsheet. -/
structure RawTeep where
  cols : List String
  rows : List ObsTeep
deriving Repr, DecidableEq

/-- Outcome of the OEE chart pipeline: the three annotation placeholders
or a chart over the monthly rows. -/
inductive FigOee where
  | fileNotFound : FigOee
  | missingColumns (missing : List String) : FigOee
  | noData : FigOee
  | chart (meses : List MonthlyRowOee) : FigOee
deriving Repr, DecidableEq

/-- Outcome of the TEEP chart pipeline. -/
inductive FigTeep where
  | fileNotFound : FigTeep
  | missingColumns (missing : List String) : FigTeep
  | noData : FigTeep
  | chart (meses : List MonthlyRowTeep) : FigTeep
deriving Repr, DecidableEq

/-- Embedding of `create_fig_oee_mensal(base_dir, linha)`: missing-file placeholder,
column check, optional category filter, monthly rollup, empty-result
placeholder, chart. -/
def create_fig_oee_mensal (file : Option RawOee) (linha : Option String) : FigOee :=
  match file with
  | none => FigOee.fileNotFound
  | some raw =>
    let falt := faltando esperadasOee (normalizeCols raw.cols)
    if falt = [] then
      let df :=
        match linha with
        | none => raw.rows
        | some l => raw.rows.filter (fun r => r.linha == l)
      let dfMes := monthlyRollupOee df
      if dfMes = [] then FigOee.noData else FigOee.chart dfMes
    else FigOee.missingColumns falt

/-- Embedding of `create_fig_teep_mensal(base_dir, linha)`. -/
def create_fig_teep_mensal (file : Option RawTeep) (linha : Option String) : FigTeep :=
  match file with
  | none => FigTeep.fileNotFound
  | some raw =>
    let falt := faltando esperadasTeep (normalizeCols raw.cols)
    if falt = [] then
      let df :=
        match linha with
        | none => raw.rows
        | some l => raw.rows.filter (fun r => r.linha == l)
      let dfMes := monthlyRollupTeep df
      if dfMes = [] then FigTeep.noData else FigTeep.chart dfMes
    else FigTeep.missingColumns falt

section GetLastLemmas

variable {α : Type}

theorem rel_getLast_of_sorted {r : α → α → Prop} (hrefl : ∀ x, r x x) {l : List α}
    (hl : l.Sorted r) (h : l ≠ []) : ∀ y ∈ l, r y (l.getLast h) := by
  induction l with
  | nil => exact absurd rfl h
  | cons x t ih =>
    intro y hy
    cases t with
    | nil =>
      rcases List.mem_cons.mp hy with h1 | h1
      · simpa [List.getLast, h1] using hrefl y
      · simp at h1
    | cons z u =>
      have ht : (z :: u : List α) ≠ [] := by simp
      rw [List.getLast_cons ht]
      rcases List.mem_cons.mp hy with h1 | h1
      · subst h1
        exact List.rel_of_sorted_cons hl _ (List.getLast_mem ht)
      · exact ih hl.of_cons ht y h1

end GetLastLemmas

/-! ### Category roster lemmas -/

theorem linhasSorted_sorted (rows : List ObsOee) :
    (linhasSorted rows).Sorted (· ≤ ·) :=
  List.sorted_insertionSort _ _

theorem linhasSorted_nodup (rows : List ObsOee) : (linhasSorted rows).Nodup :=
  (List.perm_insertionSort _ _).nodup_iff.mpr (List.nodup_dedup _)

theorem linhasSorted_sorted_lt (rows : List ObsOee) :
    (linhasSorted rows).Sorted (· < ·) :=
  ((linhasSorted_sorted rows).and (linhasSorted_nodup rows)).imp
    (fun h => lt_of_le_of_ne h.1 h.2)

theorem linhasSorted_perm {rows rows' : List ObsOee} (h : rows.Perm rows') :
    linhasSorted rows = linhasSorted rows' := by
  apply List.eq_of_perm_of_sorted _ (linhasSorted_sorted rows) (linhasSorted_sorted rows')
  exact (List.perm_insertionSort _ _).trans
    (((h.map _).dedup).trans (List.perm_insertionSort _ _).symm)

theorem mem_linhasSorted {rows : List ObsOee} {s : String} :
    s ∈ linhasSorted rows ↔ ∃ r ∈ rows, r.linha = s := by
  rw [linhasSorted, List.mem_insertionSort, List.mem_dedup, List.mem_map]

/-! ### Formatting evaluation lemmas -/

theorem fmt1_zero : fmt1 ((0 : Rat) * 100) false = "0,0" := by
  rw [fmt1]
  rw [show ((0 : Rat) * 100 * 10) = 0 by norm_num]
  rw [show roundHalfEven (0 : Rat) = 0 by rw [roundHalfEven]; norm_num]
  rw [if_neg (by norm_num)]
  decide

theorem formata_title (t : String) (v : Rat) : (formata_kpi t v).title = t := rfl

theorem formata_value (t : String) (v : Rat) :
    (formata_kpi t v).value = fmt1 (v * 100) false ++ "%" := rfl

theorem formata_is_positive (t : String) (v : Rat) :
    (formata_kpi t v).is_positive = decide (metaKpi ≤ v) := rfl

theorem formata_meta (t : String) (v : Rat) : (formata_kpi t v).meta = "Meta: ≥ 77%" := by
  show "Meta: ≥ " ++ fmt0 (metaKpi * 100) ++ "%" = "Meta: ≥ 77%"
  rw [show metaKpi * 100 = (77 : Rat) by rw [metaKpi]; norm_num]
  rw [fmt0]
  rw [show roundHalfEven (77 : Rat) = 77 by rw [roundHalfEven]; norm_num]
  rw [if_neg (by norm_num)]
  decide

theorem is_positive_zero : decide (metaKpi ≤ (0 : Rat)) = false := by
  rw [decide_eq_false_iff_not, metaKpi]
  norm_num

theorem formata_value_zero (t : String) : (formata_kpi t 0).value = "0,0%" := by
  rw [formata_value, fmt1_zero]
  rfl

/-! ### Claim theorems -/

/-- Helper: the fixed representative `sortByData` satisfies the
`sort_values` contract. -/
theorem sortByData_isSortValues (rows : List ObsOee) :
    IsSortValues rows (sortByData rows) :=
  ⟨List.perm_insertionSort leData rows, List.sorted_insertionSort leData rows⟩

/-- Two category-"A" rows sharing the same date, first the 0.80 row. -/
def rTie1 : ObsOee := ⟨20240101, "A", 80/100⟩

/-- The 0.90 row of the tie, occurring last in the input order. -/
def rTie2 : ObsOee := ⟨20240101, "A", 90/100⟩

/-- C2 counterexample: on the two-row table `[rTie1, rTie2]` with equal
dates, both orders of the tied pair are admissible outputs of
`sort_values` (pandas' default quicksort does not promise stability), and
the two admissible executions select different rows — in the first the
selected row is `rTie1`, the one occurring FIRST in the input — so "the
row occurring last in the input order is selected" is not a guarantee the
program makes. -/
theorem tie_selection_not_last_in_input :
    IsSortValues [rTie1, rTie2] [rTie2, rTie1] ∧
    IsSortValues [rTie1, rTie2] [rTie1, rTie2] ∧
    ([rTie2, rTie1].filter (fun x => x.linha == "A")).getLast? = some rTie1 ∧
    ([rTie1, rTie2].filter (fun x => x.linha == "A")).getLast? = some rTie2 ∧
    rTie1 ≠ rTie2 := by
  refine ⟨⟨List.Perm.swap rTie1 rTie2 [], ?_⟩, ⟨List.Perm.refl _, ?_⟩, rfl, rfl, ?_⟩
  · simp [List.sorted_cons, leData, rTie1, rTie2]
  · simp [List.sorted_cons, leData, rTie1, rTie2]
  · intro h
    have hoee := congrArg ObsOee.oee h
    rw [show rTie1.oee = 80/100 from rfl, show rTie2.oee = 90/100 from rfl] at hoee
    norm_num at hoee

/-- C2 (amended): under every admissible output of the date sort, the KPI
computation selects for each category a row of that category with the
maximum date; when the maximum date of the category is attained by a
unique row, that row is selected under every admissible output (tie order
among equal maximal dates is left to the sorting library); in particular,
for category "A" with 0.80 at 2024-01-01 and 0.90 at 2024-02-01, the
selected latest value is 0.90. -/
theorem kpi_selects_max_date :
    (∀ (rows s : List ObsOee) (c : String) (r : ObsOee), IsSortValues rows s →
      (s.filter (fun x => x.linha == c)).getLast? = some r →
      r.linha = c ∧ r ∈ rows ∧ ∀ x ∈ rows, x.linha = c → x.data ≤ r.data) ∧
    (∀ (rows s : List ObsOee) (c : String) (r : ObsOee), IsSortValues rows s →
      r ∈ rows → r.linha = c →
      (∀ x ∈ rows, x.linha = c → x ≠ r → x.data < r.data) →
      (s.filter (fun x => x.linha == c)).getLast? = some r) ∧
    lastValue [⟨20240101, "A", 80/100⟩, ⟨20240201, "A", 90/100⟩] "A" = 90/100 := by
  refine ⟨?_, ?_, rfl⟩
  · rintro rows s c r ⟨hperm, hsort⟩ hlast
    set f := s.filter (fun x => x.linha == c) with hf
    have hne : f ≠ [] := by
      intro h
      rw [h] at hlast
      simp at hlast
    have hgl : f.getLast hne = r := by
      have h1 := List.getLast?_eq_getLast f hne
      rw [h1] at hlast
      exact Option.some.inj hlast
    have hrf : r ∈ f := hgl ▸ List.getLast_mem hne
    have hrc : r.linha = c := by
      have h2 := (List.mem_filter.mp hrf).2
      simpa using h2
    have hrrows : r ∈ rows := hperm.mem_iff.mp (List.mem_filter.mp hrf).1
    refine ⟨hrc, hrrows, ?_⟩
    intro x hx hxc
    have hxf : x ∈ f := List.mem_filter.mpr ⟨hperm.mem_iff.mpr hx, by simpa using hxc⟩
    have hsf : f.Sorted leData := hsort.filter _
    have hrel := rel_getLast_of_sorted (r := leData) (fun y => Nat.le_refl y.data)
      hsf hne x hxf
    rw [hgl] at hrel
    exact hrel
  · rintro rows s c r ⟨hperm, hsort⟩ hr hrc hstrict
    set f := s.filter (fun x => x.linha == c) with hf
    have hrf : r ∈ f := List.mem_filter.mpr ⟨hperm.mem_iff.mpr hr, by simpa using hrc⟩
    have hne : f ≠ [] := List.ne_nil_of_mem hrf
    have hsf : f.Sorted leData := hsort.filter _
    have hglf : f.getLast hne ∈ f := List.getLast_mem hne
    have hglrows : f.getLast hne ∈ rows := hperm.mem_iff.mp (List.mem_filter.mp hglf).1
    have hglc : (f.getLast hne).linha = c := by
      have h2 := (List.mem_filter.mp hglf).2
      simpa using h2
    have hle : r.data ≤ (f.getLast hne).data :=
      rel_getLast_of_sorted (r := leData) (fun y => Nat.le_refl y.data) hsf hne r hrf
    by_cases heq : f.getLast hne = r
    · rw [List.getLast?_eq_getLast f hne, heq]
    · have hlt : (f.getLast hne).data < r.data := hstrict _ hglrows hglc heq
      omega

/-- Concrete two-row distinct-date table for the C2 witness. -/
def rowsC2 : List ObsOee := [⟨20240101, "A", 80/100⟩, ⟨20240201, "A", 90/100⟩]

/-- Witness for C2 (amended) at the example table: under the concrete
admissible sort output, the unique max-date row (value 0.90) is
selected. -/
theorem kpi_selects_max_date_witness :
    ((sortByData rowsC2).filter (fun x => x.linha == "A")).getLast? =
      some ⟨20240201, "A", 90/100⟩ :=
  kpi_selects_max_date.2.1 rowsC2 (sortByData rowsC2) "A" ⟨20240201, "A", 90/100⟩
    (sortByData_isSortValues rowsC2)
    (List.mem_cons_of_mem _ (List.mem_cons_self _ _))
    rfl
    (by
      intro x hx hxc hxne
      rcases List.mem_cons.mp hx with h1 | h1
      · subst h1
        decide
      rcases List.mem_cons.mp h1 with h2 | h2
      · exact absurd h2 hxne
      · simp at h2)

/-- C3: with at least two categories, the SMT role receives the last value
of the lexicographically smallest category and the IM role the last value
of the second-smallest, for any permutation of the rows (the sorted roster
is permutation-invariant). -/
theorem kpi_role_assignment (rows rows' : List ObsOee) (l0 l1 : String)
    (rest : List String) (hperm : rows.Perm rows')
    (hro : linhasSorted rows = l0 :: l1 :: rest) :
    kpiValsOee rows' = (lastValue rows' l0, lastValue rows' l1) ∧
    l0 < l1 ∧
    (∀ s ∈ rows.map (fun r => r.linha), l0 ≤ s ∧ (s ≠ l0 → l1 ≤ s)) := by
  have hro' : linhasSorted rows' = l0 :: l1 :: rest := (linhasSorted_perm hperm).symm ▸ hro
  have hlt : (l0 :: l1 :: rest).Sorted (· < ·) := hro ▸ linhasSorted_sorted_lt rows
  refine ⟨by rw [kpiValsOee, hro'], List.rel_of_sorted_cons hlt l1 (by simp), ?_⟩
  intro s hs
  have hmem : s ∈ linhasSorted rows :=
    mem_linhasSorted.mpr (by rcases List.mem_map.mp hs with ⟨r, hr, hrs⟩; exact ⟨r, hr, hrs⟩)
  rw [hro] at hmem
  rcases List.mem_cons.mp hmem with h1 | hmem1
  · exact ⟨le_of_eq h1.symm, fun hne => absurd h1 hne⟩
  rcases List.mem_cons.mp hmem1 with h2 | hmem2
  · exact ⟨le_of_lt (h2 ▸ List.rel_of_sorted_cons hlt l1 (by simp)), fun _ => le_of_eq h2.symm⟩
  · refine ⟨le_of_lt (List.rel_of_sorted_cons hlt s (by simp [hmem2])), fun _ => ?_⟩
    exact le_of_lt (List.rel_of_sorted_cons hlt.of_cons s (by simp [hmem2]))

/-- Concrete rows for the C3 witness: categories "Linha 2" then "Linha 1". -/
def rowsC3 : List ObsOee :=
  [⟨20240101, "Linha 2", 50/100⟩, ⟨20240102, "Linha 1", 80/100⟩]

/-- The same rows in the opposite input order. -/
def rowsC3' : List ObsOee :=
  [⟨20240102, "Linha 1", 80/100⟩, ⟨20240101, "Linha 2", 50/100⟩]

/-- Witness for C3 at a concrete two-category table and a transposition of
its rows. -/
theorem kpi_role_assignment_witness :
    kpiValsOee rowsC3' = (lastValue rowsC3' "Linha 1", lastValue rowsC3' "Linha 2") ∧
    ("Linha 1" : String) < "Linha 2" ∧
    (∀ s ∈ rowsC3.map (fun r => r.linha), "Linha 1" ≤ s ∧ (s ≠ "Linha 1" → "Linha 2" ≤ s)) :=
  kpi_role_assignment rowsC3 rowsC3' "Linha 1" "Linha 2" []
    (List.Perm.swap _ _ _)
    (by
      rw [linhasSorted]
      rw [show (rowsC3.map (fun r => r.linha)).dedup = ["Linha 2", "Linha 1"] by decide]
      simp only [List.insertionSort, List.orderedInsert]
      rw [if_neg (by rw [String.le_iff_toList_le]; decide)])

/-- C5: with exactly one category both roles receive that category's last
value (hence equal formatted value and equal `is_positive`); with zero
categories both roles receive 0.0, judged against the target 0.77, so
`is_positive` is false. -/
theorem kpi_single_and_zero_category (rows : List ObsOee) :
    (∀ l0, linhasSorted rows = [l0] →
      kpiValsOee rows = (lastValue rows l0, lastValue rows l0) ∧
      (formata_kpi "OEE SMT" (kpiValsOee rows).1).value =
        (formata_kpi "OEE IM" (kpiValsOee rows).2).value ∧
      (formata_kpi "OEE SMT" (kpiValsOee rows).1).is_positive =
        (formata_kpi "OEE IM" (kpiValsOee rows).2).is_positive) ∧
    (linhasSorted rows = [] →
      kpiValsOee rows = (0, 0) ∧
      metaKpi = 77/100 ∧
      (formata_kpi "OEE SMT" (kpiValsOee rows).1).is_positive = false) := by
  constructor
  · intro l0 h
    rw [kpiValsOee, h]
    exact ⟨rfl, rfl, rfl⟩
  · intro h
    have hv : kpiValsOee rows = (0, 0) := by rw [kpiValsOee, h]
    refine ⟨hv, rfl, ?_⟩
    rw [hv, formata_is_positive, is_positive_zero]

/-- Concrete single-category table for the C5 witness. -/
def rowsC5 : List ObsOee := [⟨20240101, "Linha 1", 85/100⟩]

/-- Witness for C5: the single-category case at a table with last value
0.85, and the zero-category case at the empty table. -/
theorem kpi_single_and_zero_category_witness :
    (kpiValsOee rowsC5 = (lastValue rowsC5 "Linha 1", lastValue rowsC5 "Linha 1") ∧
      (formata_kpi "OEE SMT" (kpiValsOee rowsC5).1).value =
        (formata_kpi "OEE IM" (kpiValsOee rowsC5).2).value ∧
      (formata_kpi "OEE SMT" (kpiValsOee rowsC5).1).is_positive =
        (formata_kpi "OEE IM" (kpiValsOee rowsC5).2).is_positive) ∧
    (kpiValsOee [] = (0, 0) ∧
      metaKpi = 77/100 ∧
      (formata_kpi "OEE SMT" (kpiValsOee []).1).is_positive = false) :=
  ⟨(kpi_single_and_zero_category rowsC5).1 "Linha 1" rfl,
   (kpi_single_and_zero_category []).2 rfl⟩

/-! ### Month partition lemmas -/

theorem mesesSorted_sorted (rows : List ObsOee) : (mesesSorted rows).Sorted (· ≤ ·) :=
  List.sorted_insertionSort _ _

theorem mesesSorted_nodup (rows : List ObsOee) : (mesesSorted rows).Nodup :=
  (List.perm_insertionSort _ _).nodup_iff.mpr (List.nodup_dedup _)

theorem mesesSorted_sorted_lt (rows : List ObsOee) : (mesesSorted rows).Sorted (· < ·) :=
  ((mesesSorted_sorted rows).and (mesesSorted_nodup rows)).imp
    (fun h => lt_of_le_of_ne h.1 h.2)

theorem mem_mesesSorted {rows : List ObsOee} {m : Nat} :
    m ∈ mesesSorted rows ↔ ∃ r ∈ rows, toPeriodM r.data = m := by
  rw [mesesSorted, List.mem_insertionSort, List.mem_dedup, List.mem_map]

theorem rollup_map_ano_mes (rows : List ObsOee) :
    (monthlyRollupOee rows).map (fun mr => mr.ano_mes) = mesesSorted rows := by
  rw [monthlyRollupOee]
  generalize mesesSorted rows = ms
  induction ms with
  | nil => rfl
  | cons m t ih => simpa using ih

/-- Concrete rows for the C4 claim example: OEE 0.80 and 0.90 in January
2024 plus 0.70 in February 2024. -/
def rowsC4 : List ObsOee :=
  [⟨20240105, "Linha 1", 80/100⟩, ⟨20240120, "Linha 1", 90/100⟩,
   ⟨20240210, "Linha 1", 70/100⟩]

/-- C4: the monthly rollup emits exactly one row per distinct month of the
input, in chronologically ascending order, each carrying the arithmetic
mean of the metric over that month's rows; on the example rows the scaled
output is January 85.0 then February 70.0. -/
theorem monthly_rollup_partitions :
    (∀ rows : List ObsOee,
      ((monthlyRollupOee rows).map (fun mr => mr.ano_mes)).Sorted (· < ·) ∧
      (∀ m : Nat, m ∈ (monthlyRollupOee rows).map (fun mr => mr.ano_mes) ↔
        ∃ r ∈ rows, toPeriodM r.data = m) ∧
      (∀ mr ∈ monthlyRollupOee rows,
        mr.oee_mean =
          mean ((rows.filter (fun r => toPeriodM r.data == mr.ano_mes)).map
            (fun r => r.oee)))) ∧
    (monthlyRollupOee rowsC4).map (fun mr => (mr.ano_mes, mr.oee_mean * 100)) =
      [(202401, 85), (202402, 70)] := by
  constructor
  · intro rows
    refine ⟨?_, ?_, ?_⟩
    · rw [rollup_map_ano_mes]
      exact mesesSorted_sorted_lt rows
    · intro m
      rw [rollup_map_ano_mes]
      exact mem_mesesSorted
    · intro mr hmr
      rcases List.mem_map.mp hmr with ⟨m, _, rfl⟩
      rfl
  · rw [monthlyRollupOee, show mesesSorted rowsC4 = [202401, 202402] by decide]
    simp only [List.map_cons, List.map_nil]
    rw [show rowsC4.filter (fun r => toPeriodM r.data == 202401) =
        [⟨20240105, "Linha 1", 80/100⟩, ⟨20240120, "Linha 1", 90/100⟩] from rfl]
    rw [show rowsC4.filter (fun r => toPeriodM r.data == 202402) =
        [⟨20240210, "Linha 1", 70/100⟩] from rfl]
    simp only [List.map_cons, List.map_nil, mean, List.sum_cons, List.sum_nil,
      List.length_cons, List.length_nil]
    norm_num

/-- Witness for C4: the January row of the example table is in the rollup
and carries the January mean. -/
theorem monthly_rollup_partitions_witness :
    (⟨202401, mean ((rowsC4.filter (fun r => toPeriodM r.data == 202401)).map
        (fun r => r.oee))⟩ : MonthlyRowOee) ∈ monthlyRollupOee rowsC4 ∧
    (⟨202401, mean ((rowsC4.filter (fun r => toPeriodM r.data == 202401)).map
        (fun r => r.oee))⟩ : MonthlyRowOee).oee_mean =
      mean ((rowsC4.filter (fun r => toPeriodM r.data ==
        (⟨202401, mean ((rowsC4.filter (fun r => toPeriodM r.data == 202401)).map
          (fun r => r.oee))⟩ : MonthlyRowOee).ano_mes)).map (fun r => r.oee)) := by
  have hmem : (⟨202401, mean ((rowsC4.filter (fun r => toPeriodM r.data == 202401)).map
      (fun r => r.oee))⟩ : MonthlyRowOee) ∈ monthlyRollupOee rowsC4 := by
    rw [monthlyRollupOee, show mesesSorted rowsC4 = [202401, 202402] by decide]
    exact List.mem_map_of_mem _ (by decide)
  exact ⟨hmem, (monthly_rollup_partitions.1 rowsC4).2.2 _ hmem⟩

/-- C6: the chart pipeline with an active category filter equals the
pipeline on the sub-table of rows of that category (for both the OEE and
the TEEP charts), and a row of any other category contributes to no
monthly mean. -/
theorem rollup_category_filter :
    (∀ (cols : List String) (rows : List ObsOee) (l : String),
      create_fig_oee_mensal (some ⟨cols, rows⟩) (some l) =
        create_fig_oee_mensal (some ⟨cols, rows.filter (fun r => r.linha == l)⟩) none) ∧
    (∀ (cols : List String) (rows : List ObsTeep) (l : String),
      create_fig_teep_mensal (some ⟨cols, rows⟩) (some l) =
        create_fig_teep_mensal (some ⟨cols, rows.filter (fun r => r.linha == l)⟩) none) ∧
    (∀ (rows : List ObsOee) (l : String) (x : ObsOee), x.linha ≠ l →
      monthlyRollupOee ((x :: rows).filter (fun r => r.linha == l)) =
        monthlyRollupOee (rows.filter (fun r => r.linha == l))) := by
  refine ⟨fun cols rows l => rfl, fun cols rows l => rfl, ?_⟩
  intro rows l x hx
  rw [List.filter_cons]
  simp [hx]

/-- Witness for C6: a "Linha 2" row contributes nothing to the rollup
filtered to "Linha 1". -/
theorem rollup_category_filter_witness :
    monthlyRollupOee (((⟨20240103, "Linha 2", 60/100⟩ : ObsOee) :: rowsC5).filter
        (fun r => r.linha == "Linha 1")) =
      monthlyRollupOee (rowsC5.filter (fun r => r.linha == "Linha 1")) :=
  rollup_category_filter.2.2 rowsC5 "Linha 1" ⟨20240103, "Linha 2", 60/100⟩ (by decide)

/-- C7: the loader reports exactly the required column names missing from
the normalized header — no more, no less — and succeeds exactly when every
required name is present; e.g. required `{date, category, oee}` against a
header containing only `Date` and ` OEE ` fails with
`MissingColumns(["category"])`. -/
theorem loader_missing_columns :
    (∀ (esperadas cols : List String) (m : String),
      m ∈ faltando esperadas (normalizeCols cols) ↔
        (m ∈ esperadas ∧ m ∉ normalizeCols cols)) ∧
    (∀ esperadas cols : List String,
      loadCheck esperadas cols = Except.ok () ↔
        ∀ s ∈ esperadas, s ∈ normalizeCols cols) ∧
    loadCheck ["date", "category", "oee"] ["Date", " OEE "] =
      Except.error (LoadError.missingColumns ["category"]) := by
  refine ⟨?_, ?_, rfl⟩
  · intro esperadas cols m
    simp [faltando, List.mem_filter]
  · intro esperadas cols
    have h2 : loadCheck esperadas cols = Except.ok () ↔
        faltando esperadas (normalizeCols cols) = [] := by
      rw [loadCheck]
      split_ifs with hf
      · simp [hf]
      · simp [hf]
    rw [h2, faltando, List.filter_eq_nil_iff]
    simp

/-- Witness for C7 at the example header: "category" is reported missing
exactly because it is required and absent from the normalized header. -/
theorem loader_missing_columns_witness :
    "category" ∈ faltando ["date", "category", "oee"] (normalizeCols ["Date", " OEE "]) ↔
      ("category" ∈ ["date", "category", "oee"] ∧
        "category" ∉ normalizeCols ["Date", " OEE "]) :=
  loader_missing_columns.1 ["date", "category", "oee"] ["Date", " OEE "] "category"

/-- C8: when no rows remain after the category filter, the monthly rollup
is the empty sequence and the chart pipeline produces the no-data
placeholder instead of an empty chart. -/
theorem empty_filter_no_data (cols : List String) (rows : List ObsOee) (l : String)
    (hcols : faltando esperadasOee (normalizeCols cols) = [])
    (hempty : rows.filter (fun r => r.linha == l) = []) :
    monthlyRollupOee (rows.filter (fun r => r.linha == l)) = [] ∧
    create_fig_oee_mensal (some ⟨cols, rows⟩) (some l) = FigOee.noData := by
  have hroll : monthlyRollupOee (rows.filter (fun r => r.linha == l)) = [] := by
    rw [hempty]
    rfl
  refine ⟨hroll, ?_⟩
  rw [create_fig_oee_mensal]
  simp only [hcols, if_pos, hroll, if_true]

/-- Witness for C8: filtering the single-category example table by a
category absent from it empties the rollup and yields the placeholder. -/
theorem empty_filter_no_data_witness :
    monthlyRollupOee (rowsC5.filter (fun r => r.linha == "Linha 2")) = [] ∧
    create_fig_oee_mensal (some ⟨esperadasOee, rowsC5⟩) (some "Linha 2") = FigOee.noData :=
  empty_filter_no_data esperadasOee rowsC5 "Linha 2" (by decide) (by decide)

/-- One-category OEE table (last OEE 0.85) for the C9 counterexample. -/
def rowsC9oee : List ObsOee := [⟨20240101, "Linha 1", 85/100⟩]

/-- Two-category TEEP table for the C9 counterexample (distinct dates, so
no selection below depends on sort tie order): "Linha 1" carries TEEP
0.60. In the scenario refuting the claim, "Linha 2"'s selected TEEP cell
is a non-numeric string, so its `float()` raises after `teep_smt_val` was
assigned. -/
def rowsC9teep : List ObsTeep :=
  [⟨20240101, "Linha 1", 60/100, 60/100⟩, ⟨20240102, "Linha 2", 50/100, 50/100⟩]

/-- C9 counterexample: a TEEP-processing failure at the second `float()`
coercion (`dashboard_oee_teep.py` line 336, reachable with a non-numeric
cell for the second-sorted category) leaves TEEP SMT at its
already-assigned 60,0% and zeroes only TEEP IM — so "the TEEP SMT and
TEEP IM cards carry 0.0" does not hold for every TEEP processing
failure. -/
theorem partial_teep_counterexample :
    (compute_kpis_run rowsC9oee rowsC9teep TryInterrupt.beforeTeepIm).map
        (fun k => k.value) =
      ["85,0%", "85,0%", "60,0%", "0,0%"] ∧
    ("60,0%" : String) ≠ "0,0%" := by
  refine ⟨?_, by decide⟩
  have hl : linhasSortedT rowsC9teep = ["Linha 1", "Linha 2"] := by
    rw [linhasSortedT]
    rw [show (rowsC9teep.map (fun r => r.linha)).dedup = ["Linha 1", "Linha 2"] by decide]
    simp only [List.insertionSort, List.orderedInsert]
    rw [if_pos (by rw [String.le_iff_toList_le]; decide)]
  have hkv : kpiValsTeep rowsC9teep = (60/100, 50/100) := by
    rw [kpiValsTeep, hl]
    rfl
  have e1 : compute_kpis_run rowsC9oee rowsC9teep TryInterrupt.beforeTeepIm =
      [formata_kpi "OEE SMT" (85/100), formata_kpi "OEE IM" (85/100),
       formata_kpi "TEEP SMT" (60/100), formata_kpi "TEEP IM" 0] := by
    show [formata_kpi "OEE SMT" (kpiValsOee rowsC9oee).1,
          formata_kpi "OEE IM" (kpiValsOee rowsC9oee).2,
          formata_kpi "TEEP SMT" (kpiValsTeep rowsC9teep).1,
          formata_kpi "TEEP IM" 0] =
        [formata_kpi "OEE SMT" (85/100), formata_kpi "OEE IM" (85/100),
         formata_kpi "TEEP SMT" (60/100), formata_kpi "TEEP IM" 0]
    rw [hkv]
    rfl
  have h85 : fmt1 ((85/100 : Rat) * 100) false = "85,0" := by
    rw [fmt1]
    rw [show ((85/100 : Rat) * 100 * 10) = 850 by norm_num]
    rw [show roundHalfEven (850 : Rat) = 850 by rw [roundHalfEven]; norm_num]
    rw [if_neg (by norm_num)]
    decide
  have h60 : fmt1 ((60/100 : Rat) * 100) false = "60,0" := by
    rw [fmt1]
    rw [show ((60/100 : Rat) * 100 * 10) = 600 by norm_num]
    rw [show roundHalfEven (600 : Rat) = 600 by rw [roundHalfEven]; norm_num]
    rw [if_neg (by norm_num)]
    decide
  rw [e1]
  simp only [List.map_cons, List.map_nil, formata_value]
  simp only [h85, h60, fmt1_zero]
  rfl

/-- C9 (amended): an exception in the TEEP stage zeroes exactly the TEEP
KPIs not yet assigned when it occurred, and never touches the OEE cards:
a failure before the first TEEP assignment (read, normalize, or the first
float() coercion) leaves both TEEP cards at 0,0%, while a failure at the
second coercion keeps the already-assigned TEEP SMT value; in both cases
the OEE cards are identical to the fully-successful run. -/
theorem partial_failure_keeps_oee_amended (oeeRows : List ObsOee)
    (teepRows : List ObsTeep) :
    compute_kpis_run oeeRows teepRows TryInterrupt.beforeTeepSmt =
      [formata_kpi "OEE SMT" (kpiValsOee oeeRows).1,
       formata_kpi "OEE IM" (kpiValsOee oeeRows).2,
       formata_kpi "TEEP SMT" 0,
       formata_kpi "TEEP IM" 0] ∧
    compute_kpis_run oeeRows teepRows TryInterrupt.beforeTeepIm =
      [formata_kpi "OEE SMT" (kpiValsOee oeeRows).1,
       formata_kpi "OEE IM" (kpiValsOee oeeRows).2,
       formata_kpi "TEEP SMT" (kpiValsTeep teepRows).1,
       formata_kpi "TEEP IM" 0] ∧
    (compute_kpis_run oeeRows teepRows TryInterrupt.beforeTeepSmt).take 2 =
      (compute_kpis_run oeeRows teepRows TryInterrupt.noRaise).take 2 ∧
    (compute_kpis_run oeeRows teepRows TryInterrupt.beforeTeepIm).take 2 =
      (compute_kpis_run oeeRows teepRows TryInterrupt.noRaise).take 2 ∧
    (formata_kpi "TEEP IM" (0 : Rat)).value = "0,0%" ∧
    (formata_kpi "TEEP IM" (0 : Rat)).is_positive = false := by
  refine ⟨rfl, rfl, rfl, rfl, formata_value_zero _, ?_⟩
  rw [formata_is_positive, is_positive_zero]

/-- Helper: the delta label is always one of the two fixed strings. -/
theorem formata_delta_label (t : String) (v : Rat) :
    (formata_kpi t v).delta_label = "Acima da meta" ∨
      (formata_kpi t v).delta_label = "Abaixo da meta" := by
  rw [show (formata_kpi t v).delta_label =
    (if decide (metaKpi ≤ v) = true then "Acima da meta" else "Abaixo da meta") from rfl]
  by_cases h : decide (metaKpi ≤ v) = true <;> simp [h]

/-- C10: both entry points always yield exactly four cards titled
"OEE SMT", "OEE IM", "TEEP SMT", "TEEP IM" in that order, each a fully
populated card with `meta` fixed at "Meta: ≥ 77%". -/
theorem four_cards_fixed :
    (∀ (o : Option (List ObsOee)) (t : Option (List ObsTeep)),
      (compute_kpis o t).map (fun k => k.title) =
        ["OEE SMT", "OEE IM", "TEEP SMT", "TEEP IM"] ∧
      (compute_kpis o t).length = 4 ∧
      (∀ k ∈ compute_kpis o t, k.meta = "Meta: ≥ 77%" ∧
        (k.delta_label = "Acima da meta" ∨ k.delta_label = "Abaixo da meta") ∧
        ∃ v : Rat, k = formata_kpi k.title v)) ∧
    (∀ (os : List ObsOee) (ts : List ObsTeep), ∃ ks,
      kpis_resumo (Except.ok os) (Except.ok ts) = Except.ok ks ∧
      ks.map (fun k => k.title) = ["OEE SMT", "OEE IM", "TEEP SMT", "TEEP IM"]) := by
  constructor
  · intro o t
    refine ⟨rfl, rfl, ?_⟩
    intro k hk
    have hcases := List.mem_cons.mp hk
    rcases hcases with h | hcases
    · exact h ▸ ⟨formata_meta _ _, formata_delta_label _ _, ⟨_, rfl⟩⟩
    rcases List.mem_cons.mp hcases with h | hcases
    · exact h ▸ ⟨formata_meta _ _, formata_delta_label _ _, ⟨_, rfl⟩⟩
    rcases List.mem_cons.mp hcases with h | hcases
    · exact h ▸ ⟨formata_meta _ _, formata_delta_label _ _, ⟨_, rfl⟩⟩
    rcases List.mem_cons.mp hcases with h | hcases
    · exact h ▸ ⟨formata_meta _ _, formata_delta_label _ _, ⟨_, rfl⟩⟩
    · simp at hcases
  · intro os ts
    exact ⟨_, rfl, rfl⟩

/-- Witness for C10 at the all-failed input: the first card of
`compute_kpis none none` is fully populated with the fixed meta. -/
theorem four_cards_fixed_witness :
    (formata_kpi "OEE SMT" (0 : Rat)).meta = "Meta: ≥ 77%" ∧
    ((formata_kpi "OEE SMT" (0 : Rat)).delta_label = "Acima da meta" ∨
      (formata_kpi "OEE SMT" (0 : Rat)).delta_label = "Abaixo da meta") ∧
    ∃ v : Rat, formata_kpi "OEE SMT" (0 : Rat) =
      formata_kpi (formata_kpi "OEE SMT" (0 : Rat)).title v :=
  (four_cards_fixed.1 none none).2.2 (formata_kpi "OEE SMT" 0)
    (List.mem_cons_self _ _)

/-- Concrete one-row OEE table for the C1 counterexample. -/
def rowsC1 : List ObsOee := [⟨20240101, "Linha 1", 85/100⟩]

/-- C1 counterexample: `kpis_resumo` propagates a read failure to its
caller instead of returning a KPI set, and a TEEP-only failure in
`compute_kpis` leaves the OEE cards non-zero — so neither half of the
claim holds of both entry points. -/
theorem kpi_failure_policy_counterexample :
    kpis_resumo (Except.error LoadError.sourceNotFound)
        (Except.error LoadError.sourceNotFound) =
      Except.error LoadError.sourceNotFound ∧
    (compute_kpis (some rowsC1) none).map (fun k => k.value) =
      ["85,0%", "85,0%", "0,0%", "0,0%"] := by
  constructor
  · rfl
  · have h85 : fmt1 ((85/100 : Rat) * 100) false = "85,0" := by
      rw [fmt1]
      rw [show ((85/100 : Rat) * 100 * 10) = 850 by norm_num]
      rw [show roundHalfEven (850 : Rat) = 850 by rw [roundHalfEven]; norm_num]
      rw [if_neg (by norm_num)]
      decide
    have e1 : compute_kpis (some rowsC1) none =
        [formata_kpi "OEE SMT" (85/100), formata_kpi "OEE IM" (85/100),
         formata_kpi "TEEP SMT" 0, formata_kpi "TEEP IM" 0] := rfl
    rw [e1]
    simp only [List.map_cons, List.map_nil, formata_value]
    simp only [h85, fmt1_zero]
    rfl

/-- C1 amended: `compute_kpis` never raises and an OEE-stage failure
yields four cards all valued 0,0% with `is_positive = false` (a TEEP-only
failure zeroes only the TEEP cards, see C9); `kpis_resumo` propagates any
read or parse failure to its caller and returns a KPI set only when both
reads succeed. -/
theorem kpi_failure_policy_amended :
    (∀ t : Option (List ObsTeep),
      (compute_kpis none t).map (fun k => (k.value, k.is_positive)) =
        [("0,0%", false), ("0,0%", false), ("0,0%", false), ("0,0%", false)]) ∧
    (∀ (e : LoadError) (t : Except LoadError (List ObsTeep)),
      kpis_resumo (Except.error e) t = Except.error e) ∧
    (∀ (os : List ObsOee) (e : LoadError),
      kpis_resumo (Except.ok os) (Except.error e) = Except.error e) ∧
    (∀ (os : List ObsOee) (ts : List ObsTeep), ∃ ks,
      kpis_resumo (Except.ok os) (Except.ok ts) = Except.ok ks) := by
  refine ⟨?_, fun e t => rfl, fun os e => rfl, fun os ts => ⟨_, rfl⟩⟩
  intro t
  have e1 : compute_kpis none t =
      [formata_kpi "OEE SMT" 0, formata_kpi "OEE IM" 0,
       formata_kpi "TEEP SMT" 0, formata_kpi "TEEP IM" 0] := rfl
  rw [e1]
  simp only [List.map_cons, List.map_nil, formata_value_zero,
    formata_is_positive, is_positive_zero]

end Dashboards
